import Mathlib

/-!
# Verification of the `napalm_dell` DNOS6 driver (`napalm_dell/dell.py`)

A shallow embedding of the parsing and session-handling code of
`DNOS6Driver` in `dell.py`, together with theorems settling the spec
claims about it.

Conventions of the embedding:

* The underlying netmiko session is modelled as a function
  `dev : String → String` (command text in, response text out), or as
  `String → Except TransportErr String` where transport failures matter.
* Python exceptions are modelled by `Except PyErr`.
* CPython name resolution matters in this module: several names used in
  `dell.py` (`ConnectionClosedException`, `telnetlib`, `caps_maps`,
  `_get_lldp_neighbor_detail_iface`, `iface`) are bound neither as locals
  nor in the module's global namespace (nor are they Python builtins), so
  evaluating them raises `NameError`.  `dellModuleNames` lists the names
  the module level of `dell.py` actually binds, and `resolveName` models
  the lookup.
* Python `float` values appearing here are exact (`-1.0`, sums of integer
  seconds), so they are modelled by `Rat`.
* String scanning is implemented on `List Char` by structural recursion so
  that every definition evaluates inside the kernel.  Python's `int(...)`
  is modelled by `pyIntOf` (optional sign followed by decimal digits) and
  `float(...)` by `pyFloatOf` (optional sign, decimal digits, optional
  fractional part); these cover every token shape the parsed device
  outputs can contain.
-/

/-- `startsL pat s`: `pat` is a leading run of `s` (Python `str.startswith`). -/
def startsL : List Char → List Char → Bool
  | [], _ => true
  | _ :: _, [] => false
  | p :: ps, c :: cs => p == c && startsL ps cs

/-- `hasSubL pat s`: `pat` occurs contiguously somewhere in `s`. -/
def hasSubL (pat : List Char) : List Char → Bool
  | [] => startsL pat []
  | c :: cs => startsL pat (c :: cs) || hasSubL pat cs

/-- Python's `pat in s` substring test on `String`. -/
def pyIn (pat s : String) : Bool := hasSubL pat.data s.data

/-- `str.startswith` on `String`. -/
def startsWithStr (pat s : String) : Bool := startsL pat.data s.data

/-- Characters strictly after the first occurrence of `pat`, if any. -/
def afterSubL (pat : List Char) : List Char → Option (List Char)
  | [] => if startsL pat [] then some [] else none
  | c :: cs => if startsL pat (c :: cs) then some ((c :: cs).drop pat.length)
               else afterSubL pat cs

/-- Split a character list at every occurrence of the character `sep`
(Python `str.split(sep)` for a one-character separator). -/
def splitOnCharL (sep : Char) (acc : List Char) : List Char → List String
  | [] => [String.mk acc.reverse]
  | c :: cs =>
    if c == sep then String.mk acc.reverse :: splitOnCharL sep [] cs
    else splitOnCharL sep (c :: acc) cs

/-- Split a string into its lines, Python `output.split('\n')`. -/
def splitNl (s : String) : List String := splitOnCharL '\n' [] s.data

/-- Python `str.split()` (no argument): split on whitespace runs,
discarding empty fields. -/
def pySplitWsL (acc : List Char) : List Char → List String
  | [] => if acc.isEmpty then [] else [String.mk acc.reverse]
  | c :: cs =>
    if c.isWhitespace then
      if acc.isEmpty then pySplitWsL [] cs
      else String.mk acc.reverse :: pySplitWsL [] cs
    else pySplitWsL (c :: acc) cs

/-- Python `str.split()` on `String`. -/
def pySplitWs (s : String) : List String := pySplitWsL [] s.data

/-- Decimal digit accumulator for `pyIntOf`. -/
def natOfDigitsAux : Nat → List Char → Option Nat
  | n, [] => some n
  | n, c :: cs => if c.isDigit then natOfDigitsAux (10 * n + (c.toNat - 48)) cs
                  else none

/-- A non-empty all-digit character run as a natural number. -/
def natOfDigits : List Char → Option Nat
  | [] => none
  | cs => natOfDigitsAux 0 cs

/-- Python `int(s)` for the token shapes the driver feeds it: an optional
sign followed by decimal digits. -/
def pyIntOf (s : String) : Option Int :=
  match s.data with
  | '-' :: cs => (natOfDigits cs).map (fun n => -(n : Int))
  | '+' :: cs => (natOfDigits cs).map (fun n => (n : Int))
  | cs => (natOfDigits cs).map (fun n => (n : Int))

/-- Unsigned part of `pyFloatOf`: digits with an optional fractional part. -/
def pyFloatAbs (s : List Char) : Option Rat :=
  match splitOnCharL '.' [] s with
  | [a] => (natOfDigits a.data).map (fun n => (n : Rat))
  | [a, b] =>
    match natOfDigits a.data, natOfDigits b.data with
    | some n, some f => some ((n : Rat) + (f : Rat) / (10 : Rat) ^ b.length)
    | _, _ => none
  | _ => none

/-- Python `float(s)` for the token shapes the driver feeds it. -/
def pyFloatOf (s : String) : Option Rat :=
  match s.data with
  | '-' :: cs => (pyFloatAbs cs).map Neg.neg
  | '+' :: cs => pyFloatAbs cs
  | cs => pyFloatAbs cs

/-- Python `s[:-1]`: drop the final character, if any. -/
def dropLast1 (s : String) : String := String.mk s.data.dropLast

/-- Python `str.lower()`. -/
def lowerStr (s : String) : String := String.mk (s.data.map Char.toLower)

example : pyIn "% Invalid" "ab % Invalid input" = true := by decide
example : pyIn "% Invalid" "ok output" = false := by decide
example : pySplitWs " 1  0025.90C2.88ED \t Dynamic  Gi1/0/48 " =
    ["1", "0025.90C2.88ED", "Dynamic", "Gi1/0/48"] := by decide
example : splitNl "a\nb\n\nc" = ["a", "b", "", "c"] := by decide
example : pyIntOf "1000" = some 1000 := by decide
example : pyIntOf "-3" = some (-3) := by decide
example : pyIntOf "" = none := by decide
example : pyIntOf "n/" = none := by decide
example : (pyFloatOf "9.75").isSome = true := by decide
example : (pyFloatOf "9.7x").isSome = false := by decide
example : (pyFloatOf "").isSome = false := by decide
example : ((2 * 3600 + 30 * 60 + 15 : Int) : Rat) = ((9015 : Int) : Rat) := by decide
example : ((-1 : Int) : Rat) = (-1 : Rat) := by norm_num

/-! ## Python-level error and name-resolution model -/

/-- The Python exceptions the embedded code can raise. -/
inductive PyErr
  | nameError (n : String)
  | unboundLocal (n : String)
  | indexError
  | valueError
  | typeError
  | attributeError
  | socketError
  | eofError
  | unicodeDecodeError
  | connectionClosed
  deriving DecidableEq

/-- The names bound in the module-global namespace of `dell.py`: one per
`import`/`from ... import` at lines 18-34 plus the class itself.  None of
`ConnectionClosedException`, `telnetlib`, `caps_maps`, `tempfile`, `uuid`,
`os` appears here (and none of them is a Python builtin). -/
def dellModuleNames : List String :=
  ["print_function", "unicode_literals", "re", "socket", "collections",
   "ConnectHandler", "FileTransfer", "InLineTransfer", "NetworkDriver",
   "napalm", "C", "py23_compat", "cast_ip", "cast_mac",
   "canonical_interface_name", "ConnectionException", "DNOS6Driver"]

/-- CPython name lookup inside a method body of `dell.py`: the local
names in scope, then the module globals; an unbound name raises
`NameError`. -/
def resolveName (locals : List String) (n : String) : Except PyErr Unit :=
  if n ∈ locals ∨ n ∈ dellModuleNames then Except.ok ()
  else Except.error (PyErr.nameError n)

/-! ## `_send_command` (dell.py lines 125-141) -/

/-- Transport-level failures caught by `_send_command`'s
`except (socket.error, EOFError)` handler. -/
inductive TransportErr
  | socketError
  | eofError
  deriving DecidableEq

/-- The argument shapes `_send_command` accepts: a single command string
or a list of candidate commands. -/
inductive Command
  | single (c : String)
  | candidates (cs : List String)

/-- The `for cmd in command` loop of `_send_command` (lines 132-135):
send each candidate; leave the loop at the first response that does not
contain the `"% Invalid"` marker.  `none` models falling through with the
loop variable `output` never assigned (empty candidate list). -/
def sendLoop (dev : String → Except TransportErr String) :
    List String → Except TransportErr (Option String)
  | [] => Except.ok none
  | c :: cs =>
    match dev c with
    | Except.error e => Except.error e
    | Except.ok out =>
      if pyIn "% Invalid" out then
        match cs with
        | [] => Except.ok (some out)
        | _ :: _ => sendLoop dev cs
      else Except.ok (some out)

/-- Line 141: `raise ConnectionClosedException(str(e))`.  The exception
class name is resolved first; it is bound neither locally nor in the
module globals (line 34 imports `ConnectionException` instead), so in
CPython this raises `NameError`.  Were the name bound, the raised
exception would be the connection-closed error. -/
def raiseConnClosed : Except PyErr String := do
  let _ ← resolveName ["self", "command", "cmd", "output", "e"] "ConnectionClosedException"
  Except.error PyErr.connectionClosed

/-- `_send_command` (lines 125-141).  The open session is modelled by
`dev`; a transport failure while sending lands in the `except` handler. -/
def send_command (dev : String → Except TransportErr String) : Command → Except PyErr String
  | Command.single c =>
    match dev c with
    | Except.ok out => Except.ok out
    | Except.error _ => raiseConnClosed
  | Command.candidates cs =>
    match sendLoop dev cs with
    | Except.ok (some out) => Except.ok out
    | Except.ok none => Except.error (PyErr.unboundLocal "output")
    | Except.error _ => raiseConnClosed

/-! ## `is_alive` (dell.py lines 143-168) -/

/-- The two transports `optional_args['transport']` selects. -/
inductive Transport
  | ssh
  | telnet
  deriving DecidableEq

/-- Possible outcomes of the underlying `write_channel` call. -/
inductive WriteOutcome
  | ok
  | socketError
  | eofError
  | unicodeDecodeError
  | attributeError
  deriving DecidableEq

/-- `is_alive` (lines 143-168).  `deviceOpen` is whether `open()` has run
(`self.device is not None`); `write` is the outcome the transport's
`write_channel` would have; `channelActive` is what
`self.device.remote_conn.transport.is_active()` would return.  In the
Telnet branch line 152 evaluates `telnetlib.IAC` before anything is
written; `telnetlib` is never imported by `dell.py`, so the lookup itself
raises `NameError`, which neither `except UnicodeDecodeError` nor
`except AttributeError` catches. -/
def is_alive (transport : Transport) (deviceOpen : Bool)
    (write : WriteOutcome) (channelActive : Bool) : Except PyErr Bool :=
  if deviceOpen = false then Except.ok false
  else
    match transport with
    | Transport.telnet => do
      let _ ← resolveName ["self", "null"] "telnetlib"
      match write with
      | WriteOutcome.ok => Except.ok true
      | WriteOutcome.unicodeDecodeError => Except.ok true
      | WriteOutcome.attributeError => Except.ok false
      | WriteOutcome.socketError => Except.error PyErr.socketError
      | WriteOutcome.eofError => Except.error PyErr.eofError
    | Transport.ssh =>
      match write with
      | WriteOutcome.ok => Except.ok channelActive
      | WriteOutcome.socketError => Except.ok false
      | WriteOutcome.eofError => Except.ok false
      | WriteOutcome.unicodeDecodeError => Except.error PyErr.unicodeDecodeError
      | WriteOutcome.attributeError => Except.error PyErr.attributeError

/-! ## `get_config` (dell.py lines 180-205) -/

/-- The dictionary `get_config` returns; the three keys are fixed at
lines 189-193. -/
structure ConfigBundle where
  startup : String
  running : String
  candidate : String
  deriving DecidableEq

/-- `get_config` (lines 180-205), with the session modelled by `dev`. -/
def get_config (dev : String → String) (retrieve : String) : ConfigBundle :=
  let configs : ConfigBundle := { startup := "", running := "", candidate := "" }
  let configs :=
    if retrieve = "startup" ∨ retrieve = "all" then
      { configs with startup := dev "show startup-config" }
    else configs
  let configs :=
    if retrieve = "running" ∨ retrieve = "all" then
      { configs with running := dev "show running-config" }
    else configs
  configs

/-! ## `get_environment` memory scan (dell.py lines 207-237) -/

/-- The memory record `get_environment` builds at lines 235-237. -/
structure EnvMemory where
  used_ram : Int
  available_ram : Int
  deriving DecidableEq

/-- `line.split()[1]` fed to `int(...)` (lines 231 and 233): `IndexError`
when the line has fewer than two fields, `ValueError` when the second
field is not an integer literal. -/
def secondTokenInt (l : String) : Except PyErr Int :=
  match (pySplitWs l)[1]? with
  | none => Except.error PyErr.indexError
  | some t =>
    match pyIntOf t with
    | none => Except.error PyErr.valueError
    | some n => Except.ok n

/-- The `for line in output.splitlines()` loop of lines 224-233, carrying
the (possibly still unassigned) locals `used_mem` and `avail_mem`.  A line
containing `'Total CPU Utilization'` parses its fifth field as the CPU
percentage and leaves the loop; afterwards lines containing `'alloc'` or
`'free'` overwrite the respective local. -/
def memScan : List String → Option Int → Option Int → Except PyErr (Option Int × Option Int)
  | [], u, a => Except.ok (u, a)
  | l :: ls, u, a =>
    if pyIn "Total CPU Utilization" l then
      match (pySplitWs l)[4]? with
      | none => Except.error PyErr.indexError
      | some tok =>
        match pyFloatOf (dropLast1 tok) with
        | none => Except.error PyErr.valueError
        | some _ => Except.ok (u, a)
    else
      match (if pyIn "alloc" l then (secondTokenInt l).map some else Except.ok u) with
      | Except.error e => Except.error e
      | Except.ok u' =>
        match (if pyIn "free" l then (secondTokenInt l).map some else Except.ok a) with
        | Except.error e => Except.error e
        | Except.ok a' => memScan ls u' a'

/-- Lines 224-237 of `get_environment` on the already-split CPU command
output: run the scan, then build the memory record.  Reading `used_mem`
at line 236 (resp. `avail_mem` at line 237) when the loop never assigned
it raises `UnboundLocalError`.  `available_ram` is `used_mem+avail_mem`. -/
def getEnvMemoryLines (ls : List String) : Except PyErr EnvMemory :=
  match memScan ls none none with
  | Except.error e => Except.error e
  | Except.ok (none, _) => Except.error (PyErr.unboundLocal "used_mem")
  | Except.ok (some _, none) => Except.error (PyErr.unboundLocal "avail_mem")
  | Except.ok (some u, some a) => Except.ok { used_ram := u, available_ram := u + a }

/-- The memory part of `get_environment` on the raw `show proc cpu`
output. -/
def getEnvironmentMemory (output : String) : Except PyErr EnvMemory :=
  getEnvMemoryLines (splitNl output)

/-- Modelled from the spec: "Memory: accumulated by scanning every line
for tokens alloc (used) and free (available)" — the variant the claim
describes, which scans the whole output with no early stop at the CPU
summary line.  Used only to compare the claim's wording against the code;
unparsable lines keep the previous value. -/
def specScanAllLines (ls : List String) : Option Int × Option Int :=
  ls.foldl
    (fun p l =>
      let p1 := if pyIn "alloc" l then
          match secondTokenInt l with
          | Except.ok n => some n
          | Except.error _ => p.1
        else p.1
      let p2 := if pyIn "free" l then
          match secondTokenInt l with
          | Except.ok n => some n
          | Except.error _ => p.2
        else p.2
      (p1, p2))
    (none, none)

/-- Well-formedness of one line for the purposes of the memory scan: the
CPU summary line has a parsable fifth field, and any `alloc`/`free` line
has a parsable second field.  Device outputs satisfy this; it rules out
the `IndexError`/`ValueError` exits of the scan. -/
def memLineWF (l : String) : Bool :=
  if pyIn "Total CPU Utilization" l then
    match (pySplitWs l)[4]? with
    | none => false
    | some tok => (pyFloatOf (dropLast1 tok)).isSome
  else
    (!pyIn "alloc" l ||
      (match secondTokenInt l with | Except.ok _ => true | Except.error _ => false)) &&
    (!pyIn "free" l ||
      (match secondTokenInt l with | Except.ok _ => true | Except.error _ => false))

/-! ## `get_mac_address_table` (dell.py lines 254-303) -/

/-- One parsed MAC-table entry (lines 287-295).  `mac` and `interface`
pass through the external helpers `napalm.base.helpers.mac` and
`self._canonical_int`, modelled as the parameters `macH`/`canonH` of the
functions below.  `moves`/`last_move` are the fixed sentinels; the float
`-1.0` is exact so `last_move` is a `Rat`. -/
structure MacEntry where
  mac : String
  interface : String
  vlan : Int
  static : Bool
  active : Bool
  moves : Int
  last_move : Rat
  deriving DecidableEq

/-- `_process_mac_fields` (lines 275-295).  `int(vlan)` raising
`ValueError` on a non-integer field is modelled by `none`. -/
def processMacFields (macH canonH : String → String)
    (vlan mac macType intf : String) : Option MacEntry :=
  let static := ["management", "static"].contains (lowerStr macType)
  let active := ["dynamic"].contains (lowerStr macType)
  (pyIntOf vlan).map (fun v =>
    { mac := macH mac, interface := canonH intf, vlan := v,
      static := static, active := active, moves := -1, last_move := ((-1 : Int) : Rat) })

/-- A delimiter line of the table rendering: `re.split(r'^----.*', ...)`
matches exactly the lines starting with four dashes. -/
def isDashLine (l : String) : Bool := startsWithStr "----" l

/-- The trailing-summary strip of line 299,
`re.split(r'\n\nTotal.*', output, flags=re.M)[0]`, at line level: the text
before the match is everything up to (excluding) the first empty line
that is followed by a line starting with `Total`.  This helper scans the
pairs starting at the second line of the segment, because the match's
first `'\n'` must terminate a preceding line. -/
def stripTotalAux : List String → List String
  | l1 :: l2 :: ls =>
    if l1 = "" && startsWithStr "Total" l2 then []
    else l1 :: stripTotalAux (l2 :: ls)
  | ls => ls

/-- Lines 298-299 at line level: the segment of `output` strictly between
the first delimiter line and the next delimiter line (or the end), with
the trailing `Total` summary stripped.  `none` models the `IndexError` of
`output[0]` at line 299 when no delimiter line exists.  The segment
produced by `re.split` additionally starts with the empty line left by
the delimiter's own newline; that line is blank, is skipped by the
`if i != ''` filter at line 302 and cannot begin a `'\n\nTotal'` match,
so it is omitted here. -/
def macDataSegment (output : String) : Option (List String) :=
  let ls := splitNl output
  if ls.any isDashLine then
    some (stripTotalAux
      (((ls.dropWhile (fun l => !isDashLine l)).drop 1).takeWhile (fun l => !isDashLine l)))
  else none

/-- `Option`-valued traversal used for the entry-building comprehension
at line 302 (any failing row aborts the call). -/
def optionMapList {α β : Type} (f : α → Option β) : List α → Option (List β)
  | [] => some []
  | x :: xs =>
    match f x, optionMapList f xs with
    | some y, some ys => some (y :: ys)
    | _, _ => none

/-- One row of the table: `_process_mac_fields(*i.split())` (line 302).
The starred call binds exactly the four parameters `vlan, mac, mac_type,
interface`; any other field count raises `TypeError`, modelled by
`none`. -/
def parseMacLine (macH canonH : String → String) (l : String) : Option MacEntry :=
  match pySplitWs l with
  | [vlan, mac, ty, intf] => processMacFields macH canonH vlan mac ty intf
  | _ => none

/-- `get_mac_address_table` (lines 254-303) on the raw
`show mac address-table` output. -/
def get_mac_address_table (macH canonH : String → String) (output : String) :
    Option (List MacEntry) :=
  (macDataSegment output).bind (fun seg =>
    optionMapList (parseMacLine macH canonH) (seg.filter (fun l => l ≠ "")))

/-! ## `get_arp_table` row parsing (dell.py lines 332-345) -/

/-- One parsed ARP entry (lines 340-345); `age` is an integer number of
seconds (or the sentinel `-1`) converted exactly by `float(...)`. -/
structure ArpEntry where
  interface : String
  mac : String
  ip : String
  age : Rat
  deriving DecidableEq

/-- `_process_arp_fields` (lines 332-345).  When the age field `h` is the
literal `'n/a'` the sentinel `-1` is used and the minute/second fields are
never touched; otherwise each component has its trailing unit character
sliced off (`h[:-1]` etc.) and is parsed by `int(...)`, whose `ValueError`
is modelled by `none`. -/
def processArpFields (macH canonH : String → String)
    (ip mac intf _macType hh mm ss : String) : Option ArpEntry :=
  if hh = "n/a" then
    some { interface := canonH intf, mac := macH mac, ip := ip, age := ((-1 : Int) : Rat) }
  else
    match pyIntOf (dropLast1 hh), pyIntOf (dropLast1 mm), pyIntOf (dropLast1 ss) with
    | some h, some m, some s =>
      some { interface := canonH intf, mac := macH mac, ip := ip,
             age := ((h * 3600 + m * 60 + s : Int) : Rat) }
    | _, _, _ => none

/-! ## `get_lldp_neighbor_detail` (dell.py lines 413-464) -/

/-- The record lines 445-454 try to build. -/
structure LldpDetail where
  remote_chassis_id : String
  remote_system_name : String
  remote_port : String
  remote_port_description : String
  remote_system_description : String
  remote_system_capab : String
  remote_system_enable_capab : String
  deriving DecidableEq

/-- `re.search(pat + r'(.+)', output).group(1)`: the rest of the line
after the first occurrence of the literal `pat`, when non-empty. -/
def reSearchCapture (pat out : String) : Option String :=
  (afterSubL pat.data out.data).bind (fun rest =>
    let cap := rest.takeWhile (fun c => c != '\n')
    if cap.isEmpty then none else some (String.mk cap))

/-- The local names `_get_lldp_neighbor_detail_iface` has bound by the
time line 441 executes (parameters and the assignments of lines
414-440). -/
def lldpIfaceLocalNames : List String :=
  ["self", "interface", "caps_map", "output", "chassis_id", "system_name",
   "port_description", "caps_supported_output", "caps_enabled_output",
   "caps_supported", "cap"]

/-- `_get_lldp_neighbor_detail_iface` (lines 413-454).  The required
`Chassis ID` match failing gives `AttributeError` (`None.group`); the
optional fields default to `''` via the bare `try/except` blocks.  Line
441 then evaluates `caps_maps[cap]`: the dictionary bound at line 414 is
named `caps_map`, so the lookup of `caps_maps` raises `NameError` on
every call that reaches it.  Were that name bound, line 443 would next
index the list `caps_enabled` with a string (`TypeError`). -/
def lldpDetailIface (dev : String → String) (interface : String) :
    Except PyErr LldpDetail :=
  let output := dev ("show lldp remote-device detail " ++ interface)
  match reSearchCapture "Chassis ID: " output with
  | none => Except.error PyErr.attributeError
  | some _chassisId =>
    let _systemName := (reSearchCapture "System Name: " output).getD ""
    let _portDescription := (reSearchCapture "Port Description: " output).getD ""
    let _capsSupportedOut := (reSearchCapture "System Capabilities Supported: " output).getD ""
    let _capsEnabledOut := (reSearchCapture "System Capabilities Enabled: " output).getD ""
    match resolveName lldpIfaceLocalNames "caps_maps" with
    | Except.error e => Except.error e
    | Except.ok _ => Except.error PyErr.typeError

/-- `Except`-valued traversal for the fan-out loop of lines 460-461. -/
def exceptMapList {ε α β : Type} (f : α → Except ε β) : List α → Except ε (List β)
  | [] => Except.ok []
  | x :: xs =>
    match f x with
    | Except.error e => Except.error e
    | Except.ok y =>
      match exceptMapList f xs with
      | Except.error e => Except.error e
      | Except.ok ys => Except.ok (y :: ys)

/-- `get_lldp_neighbor_detail` (lines 456-464).  `summaryIfaces` stands
for the interfaces `get_lldp_neighbors()` discovers on the empty-argument
path.  On the specific-interface path, line 464 evaluates
`_get_lldp_neighbor_detail_iface(iface)`: the function name is resolved
first and is bound neither locally (the method is only reachable as an
attribute of `self`) nor in the module globals; `iface` is likewise a
local assigned only on the other branch.  Were both bound, the call would
be the one modelled by `lldpDetailIface`. -/
def get_lldp_neighbor_detail (dev : String → String) (summaryIfaces : List String)
    (interface : String) : Except PyErr (List LldpDetail ⊕ LldpDetail) :=
  if interface = "" then
    match exceptMapList (lldpDetailIface dev) summaryIfaces with
    | Except.error e => Except.error e
    | Except.ok ds => Except.ok (Sum.inl ds)
  else
    match resolveName ["self", "interface"] "_get_lldp_neighbor_detail_iface" with
    | Except.error e => Except.error e
    | Except.ok _ =>
      match resolveName ["self", "interface"] "iface" with
      | Except.error e => Except.error e
      | Except.ok _ => (lldpDetailIface dev interface).map Sum.inr

/-! ## Claim theorems -/

/-- C7: for each selector in startup/running/all, `get_config` returns a
bundle with exactly the keys startup, running, candidate, in which the
unselected blobs and the candidate blob are the empty string and each
selected blob is the raw device output of the corresponding show command;
in particular `retrieve='running'` yields the raw running output, empty
startup and empty candidate. -/
theorem get_config_selectors (dev : String → String) :
    get_config dev "running"
      = { startup := "", running := dev "show running-config", candidate := "" }
    ∧ get_config dev "startup"
      = { startup := dev "show startup-config", running := "", candidate := "" }
    ∧ get_config dev "all"
      = { startup := dev "show startup-config", running := dev "show running-config",
          candidate := "" } :=
  ⟨rfl, rfl, rfl⟩

/-- C5 (code bug): a transport-level failure (socket error or EOF) during
`_send_command` does not surface as the distinct connection-closed error:
line 141 raises `ConnectionClosedException`, a name `dell.py` never binds
(line 34 imports `ConnectionException` instead), so CPython raises
`NameError` from inside the handler. -/
theorem send_command_error_nameError (cmd : String) (e : TransportErr) :
    send_command (fun _ => Except.error e) (Command.single cmd)
      = Except.error (PyErr.nameError "ConnectionClosedException") := rfl

/-- C6 (code bug): `is_alive` returns the not-alive flag before `open()`
for every transport, and the SSH branch behaves as claimed (channel-active
flag on success, not-alive on socket/EOF errors) — but the Telnet branch
never reaches the IAC+NOP write: `telnetlib` is not imported by `dell.py`,
so line 152 raises `NameError`, which neither `except` clause catches. -/
theorem is_alive_behavior :
    (∀ (t : Transport) (w : WriteOutcome) (c : Bool), is_alive t false w c = Except.ok false)
    ∧ (∀ (w : WriteOutcome) (c : Bool),
        is_alive Transport.telnet true w c = Except.error (PyErr.nameError "telnetlib"))
    ∧ (∀ c : Bool, is_alive Transport.ssh true WriteOutcome.ok c = Except.ok c)
    ∧ (∀ c : Bool, is_alive Transport.ssh true WriteOutcome.socketError c = Except.ok false)
    ∧ (∀ c : Bool, is_alive Transport.ssh true WriteOutcome.eofError c = Except.ok false) :=
  ⟨fun _ _ _ => rfl, fun _ _ => rfl, fun _ => rfl, fun _ => rfl, fun _ => rfl⟩

/-- C9 (code bug): calling `get_lldp_neighbor_detail` with a non-empty
interface never returns a detail record: line 464 refers to the method
without `self.` (and to `iface`, a local of the other branch), so the very
first name lookup raises `NameError` for any device output. -/
theorem lldp_detail_specific_nameError (dev : String → String) (ifaces : List String)
    (c : Char) (cs : List Char) :
    get_lldp_neighbor_detail dev ifaces (String.mk (c :: cs))
      = Except.error (PyErr.nameError "_get_lldp_neighbor_detail_iface") := rfl

/-- C2 counterexample: the row type tag `"Dynamic"` (the capitalisation
the device actually prints, line 271) yields an entry with
`active = true` although the tag is not exactly `"dynamic"`, refuting
"active = true only when the type tag is exactly dynamic". -/
theorem mac_type_exact_dynamic_cex :
    processMacFields id id "1" "F48E.3841.9628" "Dynamic" "Gi1/0/48"
      = some { mac := "F48E.3841.9628", interface := "Gi1/0/48", vlan := 1,
               static := false, active := true, moves := -1,
               last_move := ((-1 : Int) : Rat) }
    ∧ ("Dynamic" : String) ≠ "dynamic" :=
  ⟨rfl, by decide⟩

/-- C2 amended: a parsed MAC-table entry has `static = true` exactly when
the lowercased type tag is `"management"` or `"static"`, `active = true`
exactly when the lowercased type tag is `"dynamic"` (case-insensitively,
not only on the exact spelling), any other tag gives neither, and
`moves`/`last_move` always carry the sentinels `-1`/`-1.0`. -/
theorem mac_type_classification (macH canonH : String → String)
    (vlan mac macType intf : String) (e : MacEntry)
    (h : processMacFields macH canonH vlan mac macType intf = some e) :
    (e.static = true ↔ (lowerStr macType = "management" ∨ lowerStr macType = "static"))
    ∧ (e.active = true ↔ lowerStr macType = "dynamic")
    ∧ e.moves = -1 ∧ e.last_move = ((-1 : Int) : Rat) := by
  unfold processMacFields at h
  cases hv : pyIntOf vlan with
  | none => rw [hv] at h; exact absurd h (by simp)
  | some v =>
    rw [hv] at h
    simp only [Option.map_some', Option.some.injEq] at h
    subst h
    refine ⟨?_, ?_, rfl, rfl⟩
    · simp [List.contains, Bool.or_eq_true, beq_iff_eq]
    · simp [List.contains, Bool.or_eq_true, beq_iff_eq]

/-- Witness for `mac_type_classification` at the concrete row type tag
`"Static"`. -/
theorem mac_type_classification_app :
    ((({ mac := "F48E.3841.9628", interface := "Vl1", vlan := 1, static := true,
         active := false, moves := -1, last_move := ((-1 : Int) : Rat) } : MacEntry).static = true
        ↔ (lowerStr "Static" = "management" ∨ lowerStr "Static" = "static"))
    ∧ (({ mac := "F48E.3841.9628", interface := "Vl1", vlan := 1, static := true,
          active := false, moves := -1, last_move := ((-1 : Int) : Rat) } : MacEntry).active = true
        ↔ lowerStr "Static" = "dynamic"))
    ∧ ({ mac := "F48E.3841.9628", interface := "Vl1", vlan := 1, static := true,
         active := false, moves := -1, last_move := ((-1 : Int) : Rat) } : MacEntry).moves = -1 := by
  have h := mac_type_classification id id "1" "F48E.3841.9628" "Static" "Vl1"
    { mac := "F48E.3841.9628", interface := "Vl1", vlan := 1, static := true,
      active := false, moves := -1, last_move := ((-1 : Int) : Rat) } rfl
  exact ⟨⟨h.1, h.2.1⟩, h.2.2.1⟩

/-- C3: an ARP row whose age field is the literal `"n/a"` parses to the
sentinel age `-1.0`; otherwise each of the hour/minute/second components
has its trailing unit character stripped and the age is
`hours*3600 + minutes*60 + seconds` as an exact float. -/
theorem arp_age_parse (macH canonH : String → String)
    (ip mac intf ty hh mm ss : String) (h m s : Int)
    (hna : hh ≠ "n/a")
    (hph : pyIntOf (dropLast1 hh) = some h)
    (hpm : pyIntOf (dropLast1 mm) = some m)
    (hps : pyIntOf (dropLast1 ss) = some s) :
    processArpFields macH canonH ip mac intf ty hh mm ss
      = some { interface := canonH intf, mac := macH mac, ip := ip,
               age := ((h * 3600 + m * 60 + s : Int) : Rat) }
    ∧ processArpFields macH canonH ip mac intf ty "n/a" mm ss
      = some { interface := canonH intf, mac := macH mac, ip := ip,
               age := ((-1 : Int) : Rat) } := by
  constructor
  · unfold processArpFields
    rw [if_neg hna, hph, hpm, hps]
  · rfl

/-- Witness for `arp_age_parse`: the age rendered `2h 30m 15s` parses to
`9015.0`, and `n/a` parses to `-1.0`. -/
theorem arp_age_parse_app :
    (processArpFields id id "10.1.1.1" "F48E.3841.9628" "Gi1/0/1" "dynamic" "2h" "30m" "15s"
      = some { interface := "Gi1/0/1", mac := "F48E.3841.9628", ip := "10.1.1.1",
               age := ((2 * 3600 + 30 * 60 + 15 : Int) : Rat) }
    ∧ processArpFields id id "10.1.1.1" "F48E.3841.9628" "Gi1/0/1" "dynamic" "n/a" "30m" "15s"
      = some { interface := "Gi1/0/1", mac := "F48E.3841.9628", ip := "10.1.1.1",
               age := ((-1 : Int) : Rat) })
    ∧ ((2 * 3600 + 30 * 60 + 15 : Int) : Rat) = ((9015 : Int) : Rat) :=
  ⟨arp_age_parse id id "10.1.1.1" "F48E.3841.9628" "Gi1/0/1" "dynamic" "2h" "30m" "15s" 2 30 15
      (by decide) (by decide) (by decide) (by decide),
   by decide⟩

/-- The candidate loop over an error-free session: the loop stops at the
first response without the invalid marker, and otherwise keeps the last
response. -/
theorem sendLoop_pure (f : String → String) (cmds : List String) (h : cmds ≠ []) :
    sendLoop (fun c => Except.ok (f c)) cmds =
      Except.ok (some (match cmds.find? (fun c => !pyIn "% Invalid" (f c)) with
        | some c => f c
        | none => f (cmds.getLast h))) := by
  induction cmds with
  | nil => exact absurd rfl h
  | cons c cs ih =>
    cases cs with
    | nil =>
      cases hm : pyIn "% Invalid" (f c) with
      | true => simp [sendLoop, hm, List.find?]
      | false => simp [sendLoop, hm, List.find?]
    | cons c' cs' =>
      cases hm : pyIn "% Invalid" (f c) with
      | false =>
        have hp : (fun x => !pyIn "% Invalid" (f x)) c = true := by simp [hm]
        simp [sendLoop, hm, List.find?_cons_of_pos _ hp]
      | true =>
        have hne : c' :: cs' ≠ [] := by simp
        rw [show sendLoop (fun c => Except.ok (f c)) (c :: c' :: cs')
              = sendLoop (fun c => Except.ok (f c)) (c' :: cs') by
            simp [sendLoop, hm]]
        rw [ih hne]
        conv_rhs => rw [List.find?_cons]
        simp only [hm, Bool.not_true]
        rw [List.getLast_cons hne]

/-- C1: for every open error-free session and non-empty candidate list,
`_send_command` sends the candidates in order, returns the response of
the first candidate whose text lacks the `"% Invalid"` marker, and when
every response carries the marker returns the last candidate's response
instead of raising. -/
theorem send_command_candidates_firstValid (f : String → String) (cmds : List String)
    (h : cmds ≠ []) :
    send_command (fun c => Except.ok (f c)) (Command.candidates cmds) =
      Except.ok (match cmds.find? (fun c => !pyIn "% Invalid" (f c)) with
        | some c => f c
        | none => f (cmds.getLast h)) := by
  show (match sendLoop (fun c => Except.ok (f c)) cmds with
      | Except.ok (some out) => Except.ok out
      | Except.ok none => Except.error (PyErr.unboundLocal "output")
      | Except.error _ => raiseConnClosed)
    = Except.ok (match cmds.find? (fun c => !pyIn "% Invalid" (f c)) with
        | some c => f c
        | none => f (cmds.getLast h))
  rw [sendLoop_pure f cmds h]

/-- Witness for `send_command_candidates_firstValid`: the first candidate
is rejected with the invalid marker, so the second candidate's response
is returned. -/
theorem send_command_candidates_firstValid_app :
    send_command
      (fun c => Except.ok
        (if c = "show arp" then "ab % Invalid input detected" else "good output"))
      (Command.candidates ["show arp", "show arp brief"]) = Except.ok "good output" := by
  have h := send_command_candidates_firstValid
    (fun c => if c = "show arp" then "ab % Invalid input detected" else "good output")
    ["show arp", "show arp brief"] (by decide)
  exact h.trans (by rfl)

/-- A successful `optionMapList` run produces one output per input. -/
theorem optionMapList_length {α β : Type} (f : α → Option β) (xs : List α) (ys : List β)
    (h : optionMapList f xs = some ys) : ys.length = xs.length := by
  induction xs generalizing ys with
  | nil =>
    simp only [optionMapList, Option.some.injEq] at h
    subst h
    rfl
  | cons x xs ih =>
    unfold optionMapList at h
    cases hf : f x with
    | none => rw [hf] at h; exact absurd h (by simp)
    | some y =>
      rw [hf] at h
      cases hm : optionMapList f xs with
      | none => rw [hm] at h; exact absurd h (by simp)
      | some ys' =>
        rw [hm] at h
        simp only [Option.some.injEq] at h
        subst h
        simp [ih ys' hm]

/-- A successful `optionMapList` run succeeded on every input element. -/
theorem optionMapList_mem {α β : Type} (f : α → Option β) (xs : List α) (ys : List β)
    (h : optionMapList f xs = some ys) (x : α) (hx : x ∈ xs) : ∃ y, f x = some y := by
  induction xs generalizing ys with
  | nil => cases hx
  | cons x' xs ih =>
    unfold optionMapList at h
    cases hf : f x' with
    | none => rw [hf] at h; exact absurd h (by simp)
    | some y =>
      rw [hf] at h
      cases hm : optionMapList f xs with
      | none => rw [hm] at h; exact absurd h (by simp)
      | some ys' =>
        cases List.mem_cons.mp hx with
        | inl hx' => exact ⟨y, hx' ▸ hf⟩
        | inr hx' => exact ih ys' hm hx'

/-- A row that `_process_mac_fields(*i.split())` accepts has exactly the
four schema fields. -/
theorem parseMacLine_fieldCount (macH canonH : String → String) (l : String) (e : MacEntry)
    (h : parseMacLine macH canonH l = some e) : (pySplitWs l).length = 4 := by
  unfold parseMacLine at h
  rcases hsp : pySplitWs l with _ | ⟨a, _ | ⟨b, _ | ⟨c, _ | ⟨d, _ | ⟨x, rest⟩⟩⟩⟩⟩ <;>
    rw [hsp] at h
  · exact absurd h (by simp)
  · exact absurd h (by simp)
  · exact absurd h (by simp)
  · exact absurd h (by simp)
  · rfl
  · exact absurd h (by simp)

/-- A line whose `secondTokenInt` test succeeded has a concrete parsed
value. -/
theorem exOkSecond (l : String)
    (h : (match secondTokenInt l with
          | Except.ok _ => true
          | Except.error _ => false) = true) :
    ∃ n, secondTokenInt l = Except.ok n := by
  cases hs : secondTokenInt l with
  | ok n => exact ⟨n, rfl⟩
  | error e => rw [hs] at h; exact absurd h (by simp)

/-- A well-formed CPU summary line has a parsable fifth field. -/
theorem totalLineFields (l : String) (ht : pyIn "Total CPU Utilization" l = true)
    (hl : memLineWF l = true) :
    ∃ tok, (pySplitWs l)[4]? = some tok ∧ ∃ q, pyFloatOf (dropLast1 tok) = some q := by
  simp only [memLineWF, ht, if_true] at hl
  cases hg : (pySplitWs l)[4]? with
  | none => rw [hg] at hl; exact absurd hl (by simp)
  | some tok =>
    rw [hg] at hl
    simp only [] at hl
    cases hfq : pyFloatOf (dropLast1 tok) with
    | none => rw [hfq] at hl; exact absurd hl (by simp)
    | some q => exact ⟨tok, rfl, q, hfq⟩

/-- The memory scan on well-formed lines never raises, and the locals
`used_mem`/`avail_mem` end up assigned exactly when an `alloc` (resp.
`free`) line occurs before the first CPU summary line. -/
theorem memScan_wf (ls : List String) (u a : Option Int)
    (hwf : ∀ l ∈ ls, memLineWF l = true) :
    ∃ u' a', memScan ls u a = Except.ok (u', a')
      ∧ u'.isSome = (u.isSome
          || (ls.takeWhile (fun l => !pyIn "Total CPU Utilization" l)).any
               (fun l => pyIn "alloc" l))
      ∧ a'.isSome = (a.isSome
          || (ls.takeWhile (fun l => !pyIn "Total CPU Utilization" l)).any
               (fun l => pyIn "free" l)) := by
  revert hwf
  induction ls generalizing u a with
  | nil => exact fun _ => ⟨u, a, rfl, by simp, by simp⟩
  | cons l ls ih =>
    intro hwf
    have hl := hwf l (List.mem_cons_self l ls)
    have hwf' : ∀ x ∈ ls, memLineWF x = true := fun x hx => hwf x (List.mem_cons_of_mem l hx)
    cases ht : pyIn "Total CPU Utilization" l with
    | true =>
      obtain ⟨tok, hg, q, hfq⟩ := totalLineFields l ht hl
      refine ⟨u, a, ?_, ?_, ?_⟩
      · simp [memScan, ht, hg, hfq]
      · simp [List.takeWhile_cons, ht]
      · simp [List.takeWhile_cons, ht]
    | false =>
      have hl' : (pyIn "alloc" l = true → ∃ n, secondTokenInt l = Except.ok n)
          ∧ (pyIn "free" l = true → ∃ n, secondTokenInt l = Except.ok n) := by
        simp only [memLineWF, ht, Bool.false_eq_true, if_false, Bool.and_eq_true,
          Bool.or_eq_true, Bool.not_eq_true'] at hl
        refine ⟨fun hA => ?_, fun hF => ?_⟩
        · cases hl.1 with
          | inl h0 => rw [hA] at h0; exact absurd h0 (by simp)
          | inr h0 => exact exOkSecond l h0
        · cases hl.2 with
          | inl h0 => rw [hF] at h0; exact absurd h0 (by simp)
          | inr h0 => exact exOkSecond l h0
      obtain ⟨u1, hu1, hus⟩ :
          ∃ u1, (if pyIn "alloc" l then (secondTokenInt l).map some else Except.ok u)
              = Except.ok u1
            ∧ u1.isSome = (pyIn "alloc" l || u.isSome) := by
        cases hA : pyIn "alloc" l with
        | false => exact ⟨u, by simp, by simp⟩
        | true =>
          obtain ⟨n, hn⟩ := hl'.1 hA
          exact ⟨some n, by simp [hn, Except.map], by simp⟩
      obtain ⟨a1, ha1, has⟩ :
          ∃ a1, (if pyIn "free" l then (secondTokenInt l).map some else Except.ok a)
              = Except.ok a1
            ∧ a1.isSome = (pyIn "free" l || a.isSome) := by
        cases hF : pyIn "free" l with
        | false => exact ⟨a, by simp, by simp⟩
        | true =>
          obtain ⟨n, hn⟩ := hl'.2 hF
          exact ⟨some n, by simp [hn, Except.map], by simp⟩
      obtain ⟨u', a', hscan, hu', ha'⟩ := ih u1 a1 hwf'
      refine ⟨u', a', ?_, ?_, ?_⟩
      · rw [show memScan (l :: ls) u a = memScan ls u1 a1 by
            simp [memScan, ht, hu1, ha1]]
        exact hscan
      · rw [hu', hus]
        cases hA : pyIn "alloc" l <;> cases hU : u.isSome <;>
          simp [List.takeWhile_cons, ht, List.any_cons, hA, hU]
      · rw [ha', has]
        cases hF : pyIn "free" l <;> cases hA : a.isSome <;>
          simp [List.takeWhile_cons, ht, List.any_cons, hF, hA]

/-- C8 counterexample: on an output carrying a further `alloc` line after
the `Total CPU Utilization` line, scanning every line (the claim's
wording, `specScanAllLines`) would report the later alloc value 2000,
but `get_environment` stops at the summary line and reports 1000. -/
theorem env_memory_scan_cex :
    specScanAllLines (splitNl
        "alloc 1000\nfree 500\nTotal CPU Utilization   9.26%   9.75%   9.72%\nalloc 2000")
      = (some 2000, some 500)
    ∧ getEnvironmentMemory
        "alloc 1000\nfree 500\nTotal CPU Utilization   9.26%   9.75%   9.72%\nalloc 2000"
      = Except.ok { used_ram := 1000, available_ram := 1500 } :=
  ⟨rfl, rfl⟩

/-- C8 amended: `get_environment` scans the CPU command output only up to
the first `Total CPU Utilization` line; given an `alloc` line and a
`free` line before it, the returned record has `used_ram` equal to the
alloc value and `available_ram` equal to alloc + free (the device's
total memory), whatever lines follow the summary line. -/
theorem env_memory_used_avail (lu lf lt : String) (u a : Int) (rest : List String)
    (h1 : pyIn "alloc" lu = true) (h2 : pyIn "free" lu = false)
    (h3 : pyIn "Total CPU Utilization" lu = false)
    (h4 : secondTokenInt lu = Except.ok u)
    (h5 : pyIn "free" lf = true) (h6 : pyIn "alloc" lf = false)
    (h7 : pyIn "Total CPU Utilization" lf = false)
    (h8 : secondTokenInt lf = Except.ok a)
    (h9 : pyIn "Total CPU Utilization" lt = true)
    (h10 : memLineWF lt = true) :
    getEnvMemoryLines ([lu, lf, lt] ++ rest)
      = Except.ok { used_ram := u, available_ram := u + a } := by
  obtain ⟨tok, hg, q, hfq⟩ := totalLineFields lt h9 h10
  have hscan : memScan (lu :: lf :: lt :: rest) none none = Except.ok (some u, some a) := by
    rw [show memScan (lu :: lf :: lt :: rest) none none
          = memScan (lf :: lt :: rest) (some u) none by
        simp [memScan, h1, h2, h3, h4, Except.map]]
    rw [show memScan (lf :: lt :: rest) (some u) none
          = memScan (lt :: rest) (some u) (some a) by
        simp [memScan, h5, h6, h7, h8, Except.map]]
    simp [memScan, h9, hg, hfq]
  show getEnvMemoryLines (lu :: lf :: lt :: rest) = _
  unfold getEnvMemoryLines
  rw [hscan]

/-- Witness for `env_memory_used_avail`: alloc=1000 and free=500 give
`used_ram = 1000` and `available_ram = 1500`, ignoring a post-summary
alloc line. -/
theorem env_memory_used_avail_app :
    getEnvMemoryLines (["alloc 1000", "free 500",
        "Total CPU Utilization   9.26%   9.75%   9.72%"] ++ ["alloc 2000"])
      = Except.ok { used_ram := 1000, available_ram := 1000 + 500 } :=
  env_memory_used_avail "alloc 1000" "free 500"
    "Total CPU Utilization   9.26%   9.75%   9.72%" 1000 500 ["alloc 2000"]
    (by decide) (by decide) (by decide) (by rfl) (by decide)
    (by decide) (by decide) (by rfl) (by decide) (by decide)

/-- C10: on well-formed CPU output lines, the memory part of
`get_environment` returns normally exactly when both an `alloc` line and
a `free` line occur before the first `Total CPU Utilization` line; in
every other case it raises an unbound-local error while building the
memory record, rather than returning a placeholder or sentinel. -/
theorem env_memory_unbound_local (output : String)
    (hwf : ∀ l ∈ splitNl output, memLineWF l = true) :
    ((∃ e, getEnvironmentMemory output = Except.ok e) ↔
      (((splitNl output).takeWhile (fun l => !pyIn "Total CPU Utilization" l)).any
          (fun l => pyIn "alloc" l) = true
        ∧ ((splitNl output).takeWhile (fun l => !pyIn "Total CPU Utilization" l)).any
            (fun l => pyIn "free" l) = true))
    ∧ ((¬ ∃ e, getEnvironmentMemory output = Except.ok e) →
        ∃ v, getEnvironmentMemory output = Except.error (PyErr.unboundLocal v)) := by
  obtain ⟨u', a', hscan, hu, ha⟩ := memScan_wf (splitNl output) none none hwf
  simp only [Option.isSome_none, Bool.false_or] at hu ha
  unfold getEnvironmentMemory getEnvMemoryLines
  rw [hscan]
  cases u' with
  | none =>
    refine ⟨⟨fun h0 => ?_, fun h0 => ?_⟩, fun _ => ⟨"used_mem", rfl⟩⟩
    · obtain ⟨e, he⟩ := h0
      exact absurd he (by simp)
    · rw [h0.1] at hu
      exact absurd hu (by simp)
  | some uv =>
    simp only [Option.isSome_some] at hu
    cases a' with
    | none =>
      refine ⟨⟨fun h0 => ?_, fun h0 => ?_⟩, fun _ => ⟨"avail_mem", rfl⟩⟩
      · obtain ⟨e, he⟩ := h0
        exact absurd he (by simp)
      · rw [h0.2] at ha
        exact absurd ha (by simp)
    | some av =>
      simp only [Option.isSome_some] at ha
      refine ⟨⟨fun _ => ⟨hu.symm, ha.symm⟩,
        fun _ => ⟨{ used_ram := uv, available_ram := uv + av }, rfl⟩⟩, fun hne => ?_⟩
      exact absurd ⟨{ used_ram := uv, available_ram := uv + av }, rfl⟩ hne

/-- Witness for `env_memory_unbound_local`: with the CPU summary line
first, neither `alloc` nor `free` is scanned and the call raises an
unbound-local error. -/
theorem env_memory_unbound_local_app :
    ((∃ e, getEnvironmentMemory
          "Total CPU Utilization   9.26%   9.75%   9.72%\nalloc 1000\nfree 500"
        = Except.ok e) ↔
      (((splitNl
            "Total CPU Utilization   9.26%   9.75%   9.72%\nalloc 1000\nfree 500").takeWhile
              (fun l => !pyIn "Total CPU Utilization" l)).any
          (fun l => pyIn "alloc" l) = true
        ∧ ((splitNl
            "Total CPU Utilization   9.26%   9.75%   9.72%\nalloc 1000\nfree 500").takeWhile
              (fun l => !pyIn "Total CPU Utilization" l)).any
            (fun l => pyIn "free" l) = true))
    ∧ ((¬ ∃ e, getEnvironmentMemory
          "Total CPU Utilization   9.26%   9.75%   9.72%\nalloc 1000\nfree 500"
        = Except.ok e) →
        ∃ v, getEnvironmentMemory
            "Total CPU Utilization   9.26%   9.75%   9.72%\nalloc 1000\nfree 500"
          = Except.error (PyErr.unboundLocal v)) :=
  env_memory_unbound_local
    "Total CPU Utilization   9.26%   9.75%   9.72%\nalloc 1000\nfree 500"
    (by decide)

/-- C4: whenever `get_mac_address_table` succeeds on a table text, it
returns exactly one entry per non-blank data line of the segment between
the dash delimiter line and the trailing `Total` summary, and every such
line had exactly the four schema-fixed fields — a row with any other
field count makes the call fail rather than being silently accepted. -/
theorem mac_table_row_count (macH canonH : String → String) (output : String)
    (es : List MacEntry) (h : get_mac_address_table macH canonH output = some es) :
    ∃ seg, macDataSegment output = some seg
      ∧ es.length = (seg.filter (fun l => l ≠ "")).length
      ∧ ∀ l ∈ seg, l ≠ "" → (pySplitWs l).length = 4 := by
  unfold get_mac_address_table at h
  cases hseg : macDataSegment output with
  | none => rw [hseg] at h; exact absurd h (by simp)
  | some seg =>
    rw [hseg] at h
    simp only [Option.bind_some, Option.some_bind] at h
    refine ⟨seg, rfl, optionMapList_length _ _ _ h, ?_⟩
    intro l hl hne
    have hmem : l ∈ seg.filter (fun l => l ≠ "") := by
      simp [List.mem_filter, hl, hne]
    obtain ⟨e, he⟩ := optionMapList_mem _ _ _ h l hmem
    exact parseMacLine_fieldCount macH canonH l e he

/-- Witness for `mac_table_row_count` on the table rendering documented
at lines 266-272 of `dell.py`: two data rows give two entries. -/
theorem mac_table_row_count_app :
    ∃ seg, macDataSegment
        "Aging time is 300 Sec\n\nVlan     Mac Address           Type        Port\n-------- --------------------- ----------- ---------------------\n1        0025.90C2.88ED        Dynamic     Gi1/0/48\n1        F48E.3841.9628        Management  Vl1\n\nTotal MAC Addresses in use: 2"
        = some seg
      ∧ ([{ mac := "0025.90C2.88ED", interface := "Gi1/0/48", vlan := 1, static := false,
            active := true, moves := -1, last_move := ((-1 : Int) : Rat) },
          { mac := "F48E.3841.9628", interface := "Vl1", vlan := 1, static := true,
            active := false, moves := -1, last_move := ((-1 : Int) : Rat) }] :
          List MacEntry).length = (seg.filter (fun l => l ≠ "")).length
      ∧ ∀ l ∈ seg, l ≠ "" → (pySplitWs l).length = 4 :=
  mac_table_row_count id id
    "Aging time is 300 Sec\n\nVlan     Mac Address           Type        Port\n-------- --------------------- ----------- ---------------------\n1        0025.90C2.88ED        Dynamic     Gi1/0/48\n1        F48E.3841.9628        Management  Vl1\n\nTotal MAC Addresses in use: 2"
    [{ mac := "0025.90C2.88ED", interface := "Gi1/0/48", vlan := 1, static := false,
       active := true, moves := -1, last_move := ((-1 : Int) : Rat) },
     { mac := "F48E.3841.9628", interface := "Vl1", vlan := 1, static := true,
       active := false, moves := -1, last_move := ((-1 : Int) : Rat) }]
    (by decide)
example : dropLast1 "2h" = "2" := by decide
example : lowerStr "Dynamic" = "dynamic" := by decide
